import Mathlib

/-!
Shallow embedding of the web-stories-wp dashboard fragment:
* the Media3p resource adapter (`getUrls`, `getFullAsset`, `getResourceFromMedia3p`),
* the "My Stories" list controller state and its effects/handlers,
* the category picker's `renderCategories`.

JavaScript records become Lean structures; nullable/optional JS values become
`Option`; code that throws returns `Except String`; the in-place
`Array.prototype.sort` in `getFullAsset` is made explicit by returning the
post-call media record alongside the result.
-/

namespace Media3p

/-- Lower-casing as in `String.prototype.toLowerCase()` on the ASCII enum
strings the adapter compares: lower-case every character. -/
def jsToLower (s : String) : String :=
  String.mk (s.data.map Char.toLower)

/-- One entry of `m.imageUrls`: a size variant of an image.  `imageName` is
documented as nullable; the JS numbers `width`/`height` are modelled as `Int`
(the sort comparator subtracts them). -/
structure ImageUrl where
  imageName : Option String
  url : String
  mimeType : String
  width : Int
  height : Int
deriving DecidableEq

/-- Media author metadata (`m.author`), as used by the adapter:
`author.displayName` and `author.url` (the latter documented nullable). -/
structure Author where
  displayName : String
  url : Option String
deriving DecidableEq

/-- A Media3p media record.  Per the JSDoc typedef, `imageUrls` is the list of
size variants of an image (it is `undefined` only for non-image media, which
the adapter rejects before touching it, so it is modelled as a plain list). -/
structure Media3pMedia where
  name : String
  provider : String
  type : String
  author : Option Author
  title : Option String
  description : Option String
  createTime : String
  updateTime : String
  registerUsageUrl : String
  imageUrls : List ImageUrl
deriving DecidableEq

/-- The per-size record built by `getUrls` for one image url. -/
structure SizeEntry where
  file : String
  source_url : String
  mime_type : String
  width : Int
  height : Int
deriving DecidableEq

/-- Insertion into a JS `Map`: setting an existing key keeps its position and
overwrites its value; a new key is appended. -/
def mapInsert (l : List (Option String × SizeEntry)) (k : Option String)
    (v : SizeEntry) : List (Option String × SizeEntry) :=
  if l.any (fun p => p.1 == k) then
    l.map (fun p => if p.1 == k then (k, v) else p)
  else
    l ++ [(k, v)]

/-- Evaluation of `Object.fromEntries(new Map(entries))`: insert the entries
in order into a key-value association preserving insertion order, later
duplicates winning. -/
def mapFromEntries (entries : List (Option String × SizeEntry)) :
    List (Option String × SizeEntry) :=
  entries.foldl (fun acc p => mapInsert acc p.1 p.2) []

/-- Embedding of `getUrls(m)`: for an image, the "sizes" association keyed by
`imageName`; otherwise it throws `Invalid media type.`. -/
def getUrls (m : Media3pMedia) : Except String (List (Option String × SizeEntry)) :=
  if jsToLower m.type = "image" then
    Except.ok (mapFromEntries (m.imageUrls.map (fun u =>
      (u.imageName,
        { file := m.name
          source_url := u.url
          mime_type := u.mimeType
          width := u.width
          height := u.height }))))
  else
    Except.error "Invalid media type."

/-- The ordering the JS comparator `(el1, el2) => el2.width - el1.width`
induces: `el1` sorts no later than `el2` iff `el2.width ≤ el1.width`. -/
def widthGE (el1 el2 : ImageUrl) : Prop :=
  el2.width ≤ el1.width

instance : DecidableRel widthGE := fun a b => Int.decLe b.width a.width

instance : IsTotal ImageUrl widthGE :=
  ⟨fun a b => le_total b.width a.width⟩

instance : IsTrans ImageUrl widthGE :=
  ⟨fun _ _ _ h1 h2 => le_trans h2 h1⟩

/-- The result of `m.imageUrls.sort((el1, el2) => el2.width - el1.width)`:
a stable descending-width sort (ECMAScript sort is stable, and a stable sort
under a total preorder has a unique result, so insertion sort computes it). -/
def sortByWidthDesc (l : List ImageUrl) : List ImageUrl :=
  l.insertionSort widthGE

/-- Embedding of `getFullAsset(m)`.  `Array.prototype.sort` sorts in place, so
the call both returns the widest variant and reorders `m.imageUrls`; the
returned pair is (thrown error or result, the media record after the call). -/
def getFullAssetRun (m : Media3pMedia) :
    Except String ImageUrl × Media3pMedia :=
  if jsToLower m.type = "image" then
    if m.imageUrls.isEmpty then
      (Except.error "No imageUrls for media resource.", m)
    else
      match sortByWidthDesc m.imageUrls with
      | [] => (Except.error "No imageUrls for media resource.", m)
      | first :: rest =>
        (Except.ok first, { m with imageUrls := first :: rest })
  else
    (Except.error "Invalid media type for media resource.", m)

/-- The author part of the attribution record built by the adapter. -/
structure AttributionAuthor where
  displayName : String
  url : Option String
deriving DecidableEq

/-- The attribution record built by the adapter. -/
structure Attribution where
  author : AttributionAuthor
deriving DecidableEq

/-- The normalized Resource record. `attribution = none` models the field
being absent. -/
structure Resource where
  type : String
  mimeType : String
  creationDate : String
  src : String
  width : Int
  height : Int
  poster : Option String
  posterId : Option String
  id : String
  length : Option Int
  lengthFormatted : Option String
  title : Option String
  alt : Option String
  isLocal : Bool
  sizes : List (Option String × SizeEntry)
  attribution : Option Attribution
deriving DecidableEq

/-- Modelled from the spec: `createResource` is imported from
`./createResource`, which is not among the sources.  Per the spec the Resource
simply carries type, mime type, dimensions, source URL, creation date,
optional title/alt/attribution and the size-variant mapping, with the
attribution field omitted entirely when no author metadata was supplied; it is
modelled as packaging its arguments into the `Resource` record unchanged. -/
def createResource (args : Resource) : Resource :=
  args

/-- Embedding of `getResourceFromMedia3p(m)`: `getUrls` runs on the original
record, then `getFullAsset` (which mutates `m.imageUrls` in place), then
`createResource`.  Returns (thrown error or Resource, the media record after
the call). -/
def getResourceFromMedia3pRun (m : Media3pMedia) :
    Except String Resource × Media3pMedia :=
  match getUrls m with
  | Except.error e => (Except.error e, m)
  | Except.ok urls =>
    match getFullAssetRun m with
    | (Except.error e, m1) => (Except.error e, m1)
    | (Except.ok fullAsset, m1) =>
      (Except.ok (createResource
        { type := jsToLower m.type
          mimeType := fullAsset.mimeType
          creationDate := m.createTime
          src := fullAsset.url
          width := fullAsset.width
          height := fullAsset.height
          poster := none
          posterId := none
          id := m.name
          length := none
          lengthFormatted := none
          title := m.description
          alt := none
          isLocal := false
          sizes := urls
          attribution := m.author.map (fun a =>
            { author := { displayName := a.displayName, url := a.url } }) }),
        m1)

end Media3p

namespace Dashboard

/-- The `VIEW_STYLE` constant: grid vs list presentation. -/
inductive ViewStyle where
  | GRID
  | LIST
deriving DecidableEq

/-- The `SORT_DIRECTION` constant. -/
inductive SortDirection where
  | ASC
  | DESC
deriving DecidableEq

/-- The `MyStories` component state: its `useState` hooks plus the `ApiContext`
store fields it reads (`isLoading`, `storiesOrderById`, `totalStories`,
`totalPages`; `totalPages` is `undefined` before a fetch result arrives, hence
`Option`).  Status and sort option enums are modelled as strings. -/
structure DashboardState where
  status : String
  typeaheadValue : String
  viewStyle : ViewStyle
  currentPageToFetch : Nat
  allPagesLoaded : Bool
  currentStorySort : String
  currentListSortDirection : SortDirection
  isLoading : Bool
  storiesOrderById : List Nat
  totalStories : Nat
  totalPages : Option Nat
deriving DecidableEq

/-- JS evaluation of `currentPageToFetch >= totalPages` where `totalPages` may
be `undefined`: comparing a number with `undefined` coerces the latter to
`NaN`, and every comparison involving `NaN` yields `false`. -/
def jsGeOpt (cp : Nat) (tp : Option Nat) : Bool :=
  match tp with
  | some t => decide (t ≤ cp)
  | none => false

/-- The effect `setAllPagesLoaded(currentPageToFetch >= totalPages)`. -/
def allPagesLoadedEffect (s : DashboardState) : DashboardState :=
  { s with allPagesLoaded := jsGeOpt s.currentPageToFetch s.totalPages }

/-- Firing of `debounceTypeaheadValue`: after the 800ms debounce it runs
`setTypeaheadValue(newTypeaheadValue)`. -/
def debounceTypeaheadValue (s : DashboardState) (newTypeaheadValue : String) :
    DashboardState :=
  { s with typeaheadValue := newTypeaheadValue }

/-- Modelled from the spec: `clearExistingStoriesOrder` lives in the
`ApiContext` provider, which is not among the sources; per the spec it
"resets `storiesOrderById`". -/
def clearExistingStoriesOrder (s : DashboardState) : DashboardState :=
  { s with storiesOrderById := [] }

/-- The search-reset effect: when `typeaheadValue.length > 0`, run
`clearExistingStoriesOrder()` and `setCurrentPageToFetch(1)`. -/
def searchResetEffect (s : DashboardState) : DashboardState :=
  if 0 < s.typeaheadValue.length then
    { clearExistingStoriesOrder s with currentPageToFetch := 1 }
  else
    s

/-- Embedding of `handleGetData` of the infinite scroller: if `!isLoading`,
run `setCurrentPageToFetch(currentPageToFetch + 1)`. -/
def handleGetData (s : DashboardState) : DashboardState :=
  if s.isLoading then
    s
  else
    { s with currentPageToFetch := s.currentPageToFetch + 1 }

/-- Embedding of `handleSortChange` of the view controls:
`clearExistingStoriesOrder()`, `setCurrentPageToFetch(1)`,
`setCurrentStorySort(sort)`. -/
def handleSortChange (s : DashboardState) (sort : String) : DashboardState :=
  { clearExistingStoriesOrder s with
      currentPageToFetch := 1
      currentStorySort := sort }

/-- The value of `viewStyle === VIEW_STYLE.LIST && currentListSortDirection`:
either the boolean `false` (when the view is not the list view — a falsy
value the fetch collaborator treats as an absent direction) or the
direction. -/
inductive SortDirectionParam where
  | jsFalse
  | dir (d : SortDirection)
deriving DecidableEq

/-- The argument record passed to `fetchStories`. -/
structure FetchQuery where
  sortOption : String
  searchTerm : String
  sortDirection : SortDirectionParam
  status : String
  page : Nat
deriving DecidableEq

/-- The fetch effect: the query `fetchStories` is called with. -/
def fetchStoriesEffect (s : DashboardState) : FetchQuery :=
  { sortOption := s.currentStorySort
    searchTerm := s.typeaheadValue
    sortDirection :=
      if s.viewStyle = ViewStyle.LIST then
        SortDirectionParam.dir s.currentListSortDirection
      else
        SortDirectionParam.jsFalse
    status := s.status
    page := s.currentPageToFetch }

end Dashboard

namespace Media3pCategories

/-- One entry of the `categories` prop. -/
structure Category where
  id : String
  displayName : String
deriving DecidableEq

/-- The props a rendered `CategoryPill` receives (the ones derived from the
category data; `key` is React's `key={e.id}`). -/
structure CategoryPill where
  index : Nat
  isSelected : Bool
  key : String
  title : String
deriving DecidableEq

/-- Truthiness of the JS test `selectedCategoryId ? ... : ...`: `undefined`
and the empty string are falsy, every other string is truthy. -/
def jsTruthyId (s : Option String) : Bool :=
  match s with
  | some str => decide (str ≠ "")
  | none => false

/-- Embedding of `renderCategories`: when `selectedCategoryId` is truthy, the
rendered list is `[categories.find((e) => e.id === selectedCategoryId)]`
mapped to pills; when `find` misses, the map dereferences `undefined.id` and
throws (modelled as `none`).  When `selectedCategoryId` is falsy (`undefined`
or the empty string), all categories are rendered, each compared against the
actual `selectedCategoryId` value by `e.id === selectedCategoryId`. -/
def renderCategories (selectedCategoryId : Option String)
    (categories : List Category) : Option (List CategoryPill) :=
  let toPill : Nat × Category → CategoryPill := fun p =>
    { index := p.1
      isSelected := some p.2.id == selectedCategoryId
      key := p.2.id
      title := p.2.displayName }
  if jsTruthyId selectedCategoryId then
    match selectedCategoryId with
    | some sid =>
      match categories.find? (fun e => e.id == sid) with
      | some c => some ([c].enum.map toPill)
      | none => none
    | none => none
  else
    some (categories.enum.map toPill)

end Media3pCategories

namespace Media3p

/-- The descending-width sort is a permutation of its input. -/
theorem sortByWidthDesc_perm (l : List ImageUrl) :
    (sortByWidthDesc l).Perm l :=
  List.perm_insertionSort widthGE l

/-- The descending-width sort is sorted for `widthGE`. -/
theorem sortByWidthDesc_sorted (l : List ImageUrl) :
    List.Sorted widthGE (sortByWidthDesc l) :=
  List.sorted_insertionSort widthGE l

/-- The head of the descending-width sort is an element of the input of
maximal width. -/
theorem sortByWidthDesc_head_max {l : List ImageUrl} {x : ImageUrl}
    {rest : List ImageUrl} (h : sortByWidthDesc l = x :: rest) :
    x ∈ l ∧ ∀ v ∈ l, v.width ≤ x.width := by
  have hperm := sortByWidthDesc_perm l
  rw [h] at hperm
  constructor
  · exact hperm.mem_iff.mp (List.mem_cons_self x rest)
  · intro v hv
    have hv' : v ∈ x :: rest := hperm.mem_iff.mpr hv
    rcases List.mem_cons.mp hv' with h1 | h2
    · exact le_of_eq (by rw [h1])
    · have hs := sortByWidthDesc_sorted l
      rw [h] at hs
      exact List.rel_of_sorted_cons hs v h2

/-- Sorting a non-empty list yields a non-empty list. -/
theorem exists_sort_cons {l : List ImageUrl} (hne : l ≠ []) :
    ∃ first rest, sortByWidthDesc l = first :: rest := by
  have hperm := sortByWidthDesc_perm l
  cases hsort : sortByWidthDesc l with
  | nil =>
    rw [hsort] at hperm
    exact absurd hperm.symm.eq_nil hne
  | cons a r => exact ⟨a, r, rfl⟩

/-- On an image with size variants, `getFullAsset` returns the head of the
descending-width sort and leaves the media record with the sorted list. -/
theorem getFullAssetRun_image {m : Media3pMedia}
    (himg : jsToLower m.type = "image") (hne : m.imageUrls ≠ [])
    {first : ImageUrl} {rest : List ImageUrl}
    (hs : sortByWidthDesc m.imageUrls = first :: rest) :
    getFullAssetRun m = (Except.ok first, { m with imageUrls := first :: rest }) := by
  have hie : m.imageUrls.isEmpty = false := by
    simp [List.isEmpty_iff, hne]
  simp [getFullAssetRun, himg, hie, hs]

/-- On an image with size variants, the full run of `getResourceFromMedia3p`
computed explicitly. -/
theorem getResourceFromMedia3pRun_image {m : Media3pMedia}
    (himg : jsToLower m.type = "image") (hne : m.imageUrls ≠ [])
    {first : ImageUrl} {rest : List ImageUrl}
    (hs : sortByWidthDesc m.imageUrls = first :: rest) :
    getResourceFromMedia3pRun m =
      (Except.ok
        { type := jsToLower m.type
          mimeType := first.mimeType
          creationDate := m.createTime
          src := first.url
          width := first.width
          height := first.height
          poster := none
          posterId := none
          id := m.name
          length := none
          lengthFormatted := none
          title := m.description
          alt := none
          isLocal := false
          sizes := mapFromEntries (m.imageUrls.map (fun u =>
            (u.imageName,
              { file := m.name
                source_url := u.url
                mime_type := u.mimeType
                width := u.width
                height := u.height })))
          attribution := m.author.map (fun a =>
            { author := { displayName := a.displayName, url := a.url } }) },
       { m with imageUrls := first :: rest }) := by
  rw [getResourceFromMedia3pRun]
  rw [getFullAssetRun_image himg hne hs]
  simp [getUrls, himg, createResource]

/-- A concrete media record used to evaluate the adapter, with variant widths
100, 300, 200 (in that input order). -/
def exUrl (nm : String) (w : Int) : ImageUrl :=
  { imageName := some nm
    url := "https://x/" ++ nm
    mimeType := "image/jpeg"
    width := w
    height := w * 2 }

/-- An image media record with author metadata and variant widths
[100, 300, 200]. -/
def exampleMedia : Media3pMedia :=
  { name := "media/unsplash:1"
    provider := "UNSPLASH"
    type := "IMAGE"
    author := some { displayName := "Jane", url := some "https://a" }
    title := some "t"
    description := some "d"
    createTime := "2020-01-01"
    updateTime := "2020-01-02"
    registerUsageUrl := "https://r"
    imageUrls := [exUrl "small" 100, exUrl "full" 300, exUrl "mid" 200] }

end Media3p

namespace Dashboard

/-- A concrete controller state used to evaluate the effects. -/
def exampleState : DashboardState :=
  { status := "all"
    typeaheadValue := ""
    viewStyle := ViewStyle.GRID
    currentPageToFetch := 1
    allPagesLoaded := false
    currentStorySort := "last_modified"
    currentListSortDirection := SortDirection.ASC
    isLoading := false
    storiesOrderById := [1, 2, 3]
    totalStories := 3
    totalPages := some 2 }

end Dashboard

namespace Media3pCategories

/-- Concrete categories used to evaluate `renderCategories`. -/
def exampleCategories : List Category :=
  [{ id := "a", displayName := "Animals" }, { id := "b", displayName := "Beaches" }]

/-- Categories containing an empty-string id, exercising the falsy branch of
the truthiness test. -/
def cexCategories : List Category :=
  [{ id := "", displayName := "Empty" }, { id := "a", displayName := "Animals" }]

end Media3pCategories

/-- C1: for every image media record with a non-empty `imageUrls` list, the
adapter selects as the full asset a variant of maximal width among all
variants, and the returned Resource's `src`, `width`, `height` and `mimeType`
are taken from that variant. -/
theorem c1_full_asset_is_max_width (m : Media3p.Media3pMedia)
    (himg : Media3p.jsToLower m.type = "image") (hne : m.imageUrls ≠ []) :
    ∃ u ∈ m.imageUrls, (∀ v ∈ m.imageUrls, v.width ≤ u.width) ∧
      ∃ r, (Media3p.getResourceFromMedia3pRun m).1 = Except.ok r ∧
        r.src = u.url ∧ r.width = u.width ∧ r.height = u.height ∧
        r.mimeType = u.mimeType := by
  obtain ⟨first, rest, hs⟩ := Media3p.exists_sort_cons hne
  obtain ⟨hmem, hmax⟩ := Media3p.sortByWidthDesc_head_max hs
  refine ⟨first, hmem, hmax, ?_⟩
  rw [Media3p.getResourceFromMedia3pRun_image himg hne hs]
  exact ⟨_, rfl, rfl, rfl, rfl, rfl⟩

/-- Witness for C1 at the spec's example: variant widths [100, 300, 200]. -/
theorem c1_full_asset_is_max_width_witness :
    ∃ u ∈ Media3p.exampleMedia.imageUrls,
      (∀ v ∈ Media3p.exampleMedia.imageUrls, v.width ≤ u.width) ∧
      ∃ r, (Media3p.getResourceFromMedia3pRun Media3p.exampleMedia).1 = Except.ok r ∧
        r.src = u.url ∧ r.width = u.width ∧ r.height = u.height ∧
        r.mimeType = u.mimeType :=
  c1_full_asset_is_max_width Media3p.exampleMedia (by decide) (by decide)

/-- C2: the derived "all pages loaded" flag is true iff the current page is at
least the total page count; it is a defined boolean in edge cases, true when
the total is zero and false when the total is undefined. -/
theorem c2_all_pages_loaded_iff (s : Dashboard.DashboardState) :
    ((Dashboard.allPagesLoadedEffect s).allPagesLoaded = true ↔
      (∃ t, s.totalPages = some t ∧ t ≤ s.currentPageToFetch)) ∧
    (s.totalPages = some 0 →
      (Dashboard.allPagesLoadedEffect s).allPagesLoaded = true) ∧
    (s.totalPages = none →
      (Dashboard.allPagesLoadedEffect s).allPagesLoaded = false) := by
  refine ⟨?_, ?_, ?_⟩
  · cases htp : s.totalPages <;>
      simp [Dashboard.allPagesLoadedEffect, Dashboard.jsGeOpt, htp]
  · intro h0
    simp [Dashboard.allPagesLoadedEffect, Dashboard.jsGeOpt, h0]
  · intro hn
    simp [Dashboard.allPagesLoadedEffect, Dashboard.jsGeOpt, hn]

/-- Witness for C2 at a concrete state (page 1 of 2). -/
theorem c2_all_pages_loaded_iff_witness :
    ((Dashboard.allPagesLoadedEffect Dashboard.exampleState).allPagesLoaded = true ↔
      (∃ t, Dashboard.exampleState.totalPages = some t ∧
        t ≤ Dashboard.exampleState.currentPageToFetch)) ∧
    (Dashboard.exampleState.totalPages = some 0 →
      (Dashboard.allPagesLoadedEffect Dashboard.exampleState).allPagesLoaded = true) ∧
    (Dashboard.exampleState.totalPages = none →
      (Dashboard.allPagesLoadedEffect Dashboard.exampleState).allPagesLoaded = false) :=
  c2_all_pages_loaded_iff Dashboard.exampleState

/-- C3 counterexample: `getResourceFromMedia3p` is not free of side effects on
its input.  On the example record with variant widths [100, 300, 200], the
in-place sort inside `getFullAsset` leaves the input's `imageUrls` reordered
to widths [300, 200, 100]. -/
theorem c3_purity_counterexample :
    (Media3p.getResourceFromMedia3pRun Media3p.exampleMedia).2 ≠ Media3p.exampleMedia ∧
    (Media3p.getResourceFromMedia3pRun Media3p.exampleMedia).2.imageUrls.map
      (fun u => u.width) = [300, 200, 100] ∧
    Media3p.exampleMedia.imageUrls.map (fun u => u.width) = [100, 300, 200] := by
  refine ⟨?_, ?_, ?_⟩ <;> decide

/-- C3 (amended): `getResourceFromMedia3p` is deterministic (it is a function
of the input record alone), but it is not side-effect free: it reorders the
input's `imageUrls` in place, stable-sorting them by descending width, while
every other field of the input record is left unchanged and the reordered
list keeps exactly the original elements (a permutation). -/
theorem c3_deterministic_but_reorders (m : Media3p.Media3pMedia) :
    ((Media3p.getResourceFromMedia3pRun m).2.imageUrls).Perm m.imageUrls ∧
    (Media3p.getResourceFromMedia3pRun m).2.name = m.name ∧
    (Media3p.getResourceFromMedia3pRun m).2.provider = m.provider ∧
    (Media3p.getResourceFromMedia3pRun m).2.type = m.type ∧
    (Media3p.getResourceFromMedia3pRun m).2.author = m.author ∧
    (Media3p.getResourceFromMedia3pRun m).2.title = m.title ∧
    (Media3p.getResourceFromMedia3pRun m).2.description = m.description ∧
    (Media3p.getResourceFromMedia3pRun m).2.createTime = m.createTime ∧
    (Media3p.getResourceFromMedia3pRun m).2.updateTime = m.updateTime ∧
    (Media3p.getResourceFromMedia3pRun m).2.registerUsageUrl = m.registerUsageUrl ∧
    (Media3p.jsToLower m.type = "image" → m.imageUrls ≠ [] →
      (Media3p.getResourceFromMedia3pRun m).2.imageUrls =
        Media3p.sortByWidthDesc m.imageUrls) := by
  by_cases himg : Media3p.jsToLower m.type = "image"
  · by_cases hne : m.imageUrls = []
    · have hie : m.imageUrls.isEmpty = true := by simp [List.isEmpty_iff, hne]
      simp [Media3p.getResourceFromMedia3pRun, Media3p.getUrls,
        Media3p.getFullAssetRun, himg, hie, hne]
    · obtain ⟨first, rest, hs⟩ := Media3p.exists_sort_cons hne
      rw [Media3p.getResourceFromMedia3pRun_image himg hne hs]
      refine ⟨?_, rfl, rfl, rfl, rfl, rfl, rfl, rfl, rfl, rfl, fun _ _ => hs.symm⟩
      have hperm := Media3p.sortByWidthDesc_perm m.imageUrls
      rw [hs] at hperm
      exact hperm
  · simp [Media3p.getResourceFromMedia3pRun, Media3p.getUrls, himg]

/-- Witness for the amended C3 at the example record. -/
theorem c3_deterministic_but_reorders_witness :
    ((Media3p.getResourceFromMedia3pRun Media3p.exampleMedia).2.imageUrls).Perm
      Media3p.exampleMedia.imageUrls ∧
    (Media3p.getResourceFromMedia3pRun Media3p.exampleMedia).2.name =
      Media3p.exampleMedia.name ∧
    (Media3p.getResourceFromMedia3pRun Media3p.exampleMedia).2.provider =
      Media3p.exampleMedia.provider ∧
    (Media3p.getResourceFromMedia3pRun Media3p.exampleMedia).2.type =
      Media3p.exampleMedia.type ∧
    (Media3p.getResourceFromMedia3pRun Media3p.exampleMedia).2.author =
      Media3p.exampleMedia.author ∧
    (Media3p.getResourceFromMedia3pRun Media3p.exampleMedia).2.title =
      Media3p.exampleMedia.title ∧
    (Media3p.getResourceFromMedia3pRun Media3p.exampleMedia).2.description =
      Media3p.exampleMedia.description ∧
    (Media3p.getResourceFromMedia3pRun Media3p.exampleMedia).2.createTime =
      Media3p.exampleMedia.createTime ∧
    (Media3p.getResourceFromMedia3pRun Media3p.exampleMedia).2.updateTime =
      Media3p.exampleMedia.updateTime ∧
    (Media3p.getResourceFromMedia3pRun Media3p.exampleMedia).2.registerUsageUrl =
      Media3p.exampleMedia.registerUsageUrl ∧
    (Media3p.jsToLower Media3p.exampleMedia.type = "image" →
      Media3p.exampleMedia.imageUrls ≠ [] →
      (Media3p.getResourceFromMedia3pRun Media3p.exampleMedia).2.imageUrls =
        Media3p.sortByWidthDesc Media3p.exampleMedia.imageUrls) :=
  c3_deterministic_but_reorders Media3p.exampleMedia

/-- C4: after the debounced search value settles on a non-empty string, the
search-reset effect clears the accumulated ordering index and resets the
current page to 1. -/
theorem c4_search_reset (s : Dashboard.DashboardState) (v : String)
    (hv : v ≠ "") :
    (Dashboard.searchResetEffect
      (Dashboard.debounceTypeaheadValue s v)).storiesOrderById = [] ∧
    (Dashboard.searchResetEffect
      (Dashboard.debounceTypeaheadValue s v)).currentPageToFetch = 1 := by
  have hlen : 0 < v.length := by
    cases v with
    | mk data =>
      cases data with
      | nil => exact absurd rfl hv
      | cons a l => simp [String.length]
  simp [Dashboard.searchResetEffect, Dashboard.debounceTypeaheadValue,
    Dashboard.clearExistingStoriesOrder, hlen]

/-- Witness for C4 with the search text "dog". -/
theorem c4_search_reset_witness :
    (Dashboard.searchResetEffect
      (Dashboard.debounceTypeaheadValue Dashboard.exampleState "dog")).storiesOrderById = [] ∧
    (Dashboard.searchResetEffect
      (Dashboard.debounceTypeaheadValue Dashboard.exampleState "dog")).currentPageToFetch = 1 :=
  c4_search_reset Dashboard.exampleState "dog" (by decide)

/-- C5: load-more increments the current page by exactly 1 (changing nothing
else) when no fetch is in flight, and changes no state at all when a fetch is
in flight. -/
theorem c5_load_more (s : Dashboard.DashboardState) :
    (s.isLoading = false →
      Dashboard.handleGetData s =
        { s with currentPageToFetch := s.currentPageToFetch + 1 }) ∧
    (s.isLoading = true → Dashboard.handleGetData s = s) := by
  constructor <;> intro h <;> simp [Dashboard.handleGetData, h]

/-- Witness for C5 at a concrete idle state. -/
theorem c5_load_more_witness :
    (Dashboard.exampleState.isLoading = false →
      Dashboard.handleGetData Dashboard.exampleState =
        { Dashboard.exampleState with
            currentPageToFetch := Dashboard.exampleState.currentPageToFetch + 1 }) ∧
    (Dashboard.exampleState.isLoading = true →
      Dashboard.handleGetData Dashboard.exampleState = Dashboard.exampleState) :=
  c5_load_more Dashboard.exampleState

/-- C6: the adapter reports an error exactly when the media type is not the
supported image case or when an image's size-variant list is empty; every
image record with at least one variant yields a Resource without error. -/
theorem c6_error_iff_unsupported_or_empty (m : Media3p.Media3pMedia) :
    (∃ e, (Media3p.getResourceFromMedia3pRun m).1 = Except.error e) ↔
      (¬ Media3p.jsToLower m.type = "image" ∨ m.imageUrls = []) := by
  by_cases himg : Media3p.jsToLower m.type = "image"
  · by_cases hne : m.imageUrls = []
    · have hie : m.imageUrls.isEmpty = true := by simp [List.isEmpty_iff, hne]
      simp [Media3p.getResourceFromMedia3pRun, Media3p.getUrls,
        Media3p.getFullAssetRun, himg, hie, hne]
    · obtain ⟨first, rest, hs⟩ := Media3p.exists_sort_cons hne
      rw [Media3p.getResourceFromMedia3pRun_image himg hne hs]
      simp [himg, hne]
  · simp [Media3p.getResourceFromMedia3pRun, Media3p.getUrls, himg]

/-- C7: for a successfully adapted image record, the Resource's attribution
is `{author: {displayName, url}}` copied from the author when present and is
absent when the author is absent. -/
theorem c7_attribution_passthrough (m : Media3p.Media3pMedia)
    (himg : Media3p.jsToLower m.type = "image") (hne : m.imageUrls ≠ []) :
    ∃ r, (Media3p.getResourceFromMedia3pRun m).1 = Except.ok r ∧
      r.attribution = m.author.map (fun a =>
        { author := { displayName := a.displayName, url := a.url } }) ∧
      (m.author = none → r.attribution = none) ∧
      (∀ a, m.author = some a →
        r.attribution =
          some { author := { displayName := a.displayName, url := a.url } }) := by
  obtain ⟨first, rest, hs⟩ := Media3p.exists_sort_cons hne
  rw [Media3p.getResourceFromMedia3pRun_image himg hne hs]
  refine ⟨_, rfl, rfl, ?_, ?_⟩
  · intro ha
    simp [ha]
  · intro a ha
    simp [ha]

/-- Witness for C7 at the example record, whose author is present. -/
theorem c7_attribution_passthrough_witness :
    ∃ r, (Media3p.getResourceFromMedia3pRun Media3p.exampleMedia).1 = Except.ok r ∧
      r.attribution = Media3p.exampleMedia.author.map (fun a =>
        { author := { displayName := a.displayName, url := a.url } }) ∧
      (Media3p.exampleMedia.author = none → r.attribution = none) ∧
      (∀ a, Media3p.exampleMedia.author = some a →
        r.attribution =
          some { author := { displayName := a.displayName, url := a.url } }) :=
  c7_attribution_passthrough Media3p.exampleMedia (by decide) (by decide)

/-- C8: every fetch query carries the sort option, search term, status and
page from the controller state, and the sort-direction parameter is the
direction exactly in list view and the absent-like value `false` otherwise. -/
theorem c8_fetch_query_params (s : Dashboard.DashboardState) :
    (Dashboard.fetchStoriesEffect s).sortOption = s.currentStorySort ∧
    (Dashboard.fetchStoriesEffect s).searchTerm = s.typeaheadValue ∧
    (Dashboard.fetchStoriesEffect s).status = s.status ∧
    (Dashboard.fetchStoriesEffect s).page = s.currentPageToFetch ∧
    (s.viewStyle = Dashboard.ViewStyle.LIST →
      (Dashboard.fetchStoriesEffect s).sortDirection =
        Dashboard.SortDirectionParam.dir s.currentListSortDirection) ∧
    (s.viewStyle ≠ Dashboard.ViewStyle.LIST →
      (Dashboard.fetchStoriesEffect s).sortDirection =
        Dashboard.SortDirectionParam.jsFalse) := by
  refine ⟨rfl, rfl, rfl, rfl, ?_, ?_⟩ <;> intro h <;>
    simp [Dashboard.fetchStoriesEffect, h]

/-- Witness for C8 at a concrete grid-view state. -/
theorem c8_fetch_query_params_witness :
    (Dashboard.fetchStoriesEffect Dashboard.exampleState).sortOption =
      Dashboard.exampleState.currentStorySort ∧
    (Dashboard.fetchStoriesEffect Dashboard.exampleState).searchTerm =
      Dashboard.exampleState.typeaheadValue ∧
    (Dashboard.fetchStoriesEffect Dashboard.exampleState).status =
      Dashboard.exampleState.status ∧
    (Dashboard.fetchStoriesEffect Dashboard.exampleState).page =
      Dashboard.exampleState.currentPageToFetch ∧
    (Dashboard.exampleState.viewStyle = Dashboard.ViewStyle.LIST →
      (Dashboard.fetchStoriesEffect Dashboard.exampleState).sortDirection =
        Dashboard.SortDirectionParam.dir Dashboard.exampleState.currentListSortDirection) ∧
    (Dashboard.exampleState.viewStyle ≠ Dashboard.ViewStyle.LIST →
      (Dashboard.fetchStoriesEffect Dashboard.exampleState).sortDirection =
        Dashboard.SortDirectionParam.jsFalse) :=
  c8_fetch_query_params Dashboard.exampleState

/-- C9: the view controls' sort-change handler clears the accumulated
ordering index and resets the current page to 1 while applying the newly
selected sort option. -/
theorem c9_sort_change_resets (s : Dashboard.DashboardState) (sort : String) :
    (Dashboard.handleSortChange s sort).storiesOrderById = [] ∧
    (Dashboard.handleSortChange s sort).currentPageToFetch = 1 ∧
    (Dashboard.handleSortChange s sort).currentStorySort = sort := by
  simp [Dashboard.handleSortChange, Dashboard.clearExistingStoriesOrder]

/-- C10 counterexample: with the empty string as the selected id — which is
set and equals the id of a category in the list — the truthiness test is
falsy, so every category is rendered (the empty-id one marked selected)
rather than exactly one pill. -/
theorem c10_falsy_empty_id_counterexample :
    (({ id := "", displayName := "Empty" } : Media3pCategories.Category) ∈
      Media3pCategories.cexCategories) ∧
    ({ id := "", displayName := "Empty" } : Media3pCategories.Category).id = "" ∧
    Media3pCategories.renderCategories (some "") Media3pCategories.cexCategories =
      some [{ index := 0, isSelected := true, key := "", title := "Empty" },
            { index := 1, isSelected := false, key := "a", title := "Animals" }] := by
  refine ⟨?_, ?_, ?_⟩ <;> decide

/-- C10 (amended): when the selected category id is non-empty (the empty
string is falsy in JS and takes the render-all branch) and matches some
category in the list, `renderCategories` renders exactly one pill — the
matching category, marked selected — and the crashing no-match branch is not
taken. -/
theorem c10_selected_category_single_pill (sid : String)
    (categories : List Media3pCategories.Category)
    (hsid : sid ≠ "")
    (h : ∃ c ∈ categories, c.id = sid) :
    ∃ c pill, c ∈ categories ∧ c.id = sid ∧
      Media3pCategories.renderCategories (some sid) categories = some [pill] ∧
      pill.isSelected = true ∧ pill.title = c.displayName ∧ pill.key = c.id := by
  obtain ⟨c0, hc0mem, hc0id⟩ := h
  have hsome : (categories.find? (fun e => e.id == sid)).isSome := by
    rw [List.find?_isSome]
    exact ⟨c0, hc0mem, by simp [hc0id]⟩
  obtain ⟨c, hc⟩ := Option.isSome_iff_exists.mp hsome
  have hcid : c.id = sid := by
    have hp := List.find?_some hc
    simpa using hp
  have hcmem : c ∈ categories := List.mem_of_find?_eq_some hc
  refine ⟨c, { index := 0, isSelected := true, key := c.id, title := c.displayName },
    hcmem, hcid, ?_, rfl, rfl, rfl⟩
  simp [Media3pCategories.renderCategories, Media3pCategories.jsTruthyId,
    hsid, hc, hcid, List.enum]

/-- Witness for C10: category "b" selected among two categories. -/
theorem c10_selected_category_single_pill_witness :
    ∃ c pill, c ∈ Media3pCategories.exampleCategories ∧ c.id = "b" ∧
      Media3pCategories.renderCategories (some "b")
        Media3pCategories.exampleCategories = some [pill] ∧
      pill.isSelected = true ∧ pill.title = c.displayName ∧ pill.key = c.id :=
  c10_selected_category_single_pill "b" Media3pCategories.exampleCategories
    (by decide) (by decide)
